import Mathlib

/-!
Verification development for the Cementra backend (`backend/app.py`), a Flask
JSON service over an in-memory mock data store.  The Python code is shallowly
embedded: each request handler becomes a Lean function of the store, the
current time (passed in as strings / an hour number, since `datetime.now()` is
ambient input), the parsed request body, and the values drawn from the
process-wide random source (passed in as parameters constrained by the
documented contracts of `random.randint` / `random.uniform` /
`random.choice`).  Handlers return their response together with the store they
leave behind, making the absence of writes to the shared state explicit.

`random.uniform` is modelled with idealized real-number semantics
(`a + (b - a) * u` with `u ∈ [0,1)`, hence a value in `[a, b)`), and Python
floats are modelled as rationals; no claim here depends on floating-point
rounding behaviour.
-/

namespace Cementra

/-- One worker record, as built in `PlantDataStore.generate_mock_workers`.
`last_safety_training` is `datetime.now() - timedelta(days=d)`; only the drawn
day count `d` is modelled (`last_training_days_ago`). -/
structure Worker where
  id : String
  name : String
  age : Nat
  zone : String
  status : String
  ppe_compliance : Bool
  certification_valid : Bool
  last_training_days_ago : Nat
deriving DecidableEq

/-- `statuses = ['Safe', 'PPE Missing', 'Training Required', 'Off Duty']`. -/
def statuses : List String := ["Safe", "PPE Missing", "Training Required", "Off Duty"]

/-- `zones = ['Zone A', 'Zone B', 'Zone C', 'Zone D']`. -/
def zones : List String := ["Zone A", "Zone B", "Zone C", "Zone D"]

/-- The values drawn from `random` for one worker in
`generate_mock_workers`: `randint(22, 60)`, `choice(zones)`,
`choice(statuses)`, `choice([True, False])`, `randint(1, 90)`. -/
structure WorkerDraw where
  age : Nat
  zone : String
  status : String
  ppe : Bool
  trainDays : Nat
deriving DecidableEq

/-- The contract the random source guarantees for one worker's draws:
`randint(a, b)` is in `[a, b]` and `choice(xs)` is an element of `xs`. -/
def WorkerDraw.Valid (d : WorkerDraw) : Prop :=
  22 ≤ d.age ∧ d.age ≤ 60 ∧ d.zone ∈ zones ∧ d.status ∈ statuses ∧
    1 ≤ d.trainDays ∧ d.trainDays ≤ 90

instance (d : WorkerDraw) : Decidable d.Valid := by
  unfold WorkerDraw.Valid
  infer_instance

/-- The worker dict built for loop index `i` in `generate_mock_workers`. -/
def mkWorker (i : Nat) (d : WorkerDraw) : Worker :=
  { id := "W" ++ toString (1000 + i)
  , name := "Worker " ++ toString i
  , age := d.age
  , zone := d.zone
  , status := d.status
  , ppe_compliance := d.ppe
  , certification_valid := true
  , last_training_days_ago := d.trainDays }

/-- `PlantDataStore.generate_mock_workers`: `for i in range(1, 51)` appends
`mkWorker i` with that iteration's draws. -/
def generate_mock_workers (draws : Nat → WorkerDraw) : List Worker :=
  (List.range 50).map (fun k => mkWorker (k + 1) (draws (k + 1)))

/-- One shift record of `PlantDataStore.generate_mock_schedules`. -/
structure Shift where
  shift_id : String
  shift_name : String
  start_time : String
  end_time : String
  workers_assigned : Nat
  supervisor : String
  tasks : List String
deriving DecidableEq

/-- `PlantDataStore.generate_mock_schedules`: the three fixed shifts. -/
def generate_mock_schedules : List Shift :=
  [ { shift_id := "A001"
    , shift_name := "Morning Shift"
    , start_time := "06:00"
    , end_time := "14:00"
    , workers_assigned := 25
    , supervisor := "John Supervisor"
    , tasks := ["Production", "Quality Control", "Maintenance"] }
  , { shift_id := "B001"
    , shift_name := "Afternoon Shift"
    , start_time := "14:00"
    , end_time := "22:00"
    , workers_assigned := 22
    , supervisor := "Mary Manager"
    , tasks := ["Production", "Equipment Check", "Safety Audit"] }
  , { shift_id := "C001"
    , shift_name := "Night Shift"
    , start_time := "22:00"
    , end_time := "06:00"
    , workers_assigned := 15
    , supervisor := "Bob Controller"
    , tasks := ["Maintenance", "Deep Cleaning", "System Check"] } ]

/-- The production-metrics record.  Python floats are modelled as `ℚ`. -/
structure Metrics where
  production_rate : Int
  efficiency : ℚ
  temperature : Int
  energy_consumption : ℚ
  co2_emissions : Int
deriving DecidableEq

/-- The baseline `production_metrics` dict of `PlantDataStore.__init__`. -/
def initial_metrics : Metrics :=
  { production_rate := 2450
  , efficiency := (87.3 : ℚ)
  , temperature := 1480
  , energy_consumption := (85.2 : ℚ)
  , co2_emissions := -12 }

/-- `PlantDataStore`: the process-wide in-memory state.
`safety_violations` is initialised to `[]` and never touched again; its
elements are never constructed, so it is typed over `Worker` only to give the
empty list a type. -/
structure PlantDataStore where
  workers : List Worker
  safety_violations : List Worker
  production_metrics : Metrics
  schedules : List Shift
deriving DecidableEq

/-- `PlantDataStore.__init__`, parameterised by the per-worker random draws. -/
def PlantDataStore.init (draws : Nat → WorkerDraw) : PlantDataStore :=
  { workers := generate_mock_workers draws
  , safety_violations := []
  , production_metrics := initial_metrics
  , schedules := generate_mock_schedules }

/-- The body of a POST request as Flask sees it.  `absent` covers a missing
body or a non-JSON content type, `malformed` a body that is not valid JSON;
in both cases `request.json` raises (415 / 400) before the handler's own code
runs.  `jsonObj` is a parsed JSON object; only string-valued fields occur in
the requests the handlers read. -/
inductive RequestBody where
  | absent
  | malformed
  | jsonObj (fields : List (String × String))
deriving DecidableEq

/-- Flask's `request.json`: the parsed object, or a framework-level request
failure (modelled as `Except.error ()`) when the body is absent or
malformed. -/
def request_json : RequestBody → Except Unit (List (String × String))
  | .absent => .error ()
  | .malformed => .error ()
  | .jsonObj fields => .ok fields

/-- Python `dict.get(key, default)` on a parsed JSON object. -/
def dictGet (fields : List (String × String)) (key dflt : String) : String :=
  match fields.find? (fun p => p.1 == key) with
  | some p => p.2
  | none => dflt

/-- Python `round(q, 1)`.  Python rounds halves to even while Mathlib's
`round` rounds them up, but every value rounded in this program is an exact
multiple of `1/10` scaled from integer counts, where the two agree. -/
def round1 (q : ℚ) : ℚ := (round (10 * q) : ℤ) / 10

/-- The root route `index`: reading `frontend/index.html` either yields the
file's contents or raises `FileNotFoundError`, which the handler turns into a
JSON error payload with HTTP status 404.  The filesystem is modelled by the
`Option String` argument. -/
def index (frontendFile : Option String) : Except (String × Nat) String :=
  match frontendFile with
  | some contents => .ok contents
  | none =>
      .error ("Frontend not found. Please ensure index.html exists in frontend folder", 404)

/-- `services` sub-dict of the health-check payload. -/
structure ServicesStatus where
  ai_engine : String
  safety_monitor : String
  database : String
deriving DecidableEq

/-- Response of `health_check` (`/api/health`).  Note: there is no `data`
field at the top level of this payload. -/
structure HealthResponse where
  status : String
  timestamp : String
  version : String
  services : ServicesStatus
deriving DecidableEq

/-- `health_check` handler. -/
def health_check (s : PlantDataStore) (now : String) : HealthResponse × PlantDataStore :=
  ({ status := "healthy"
   , timestamp := now
   , version := "1.0.0"
   , services := { ai_engine := "online", safety_monitor := "online", database := "online" } }, s)

/-- The draws of `get_operations_metrics`: `randint(-50, 50)`,
`uniform(-2, 2)`, `randint(-20, 20)`. -/
structure MetricsDraw where
  dRate : Int
  dEff : ℚ
  dTemp : Int
deriving DecidableEq

/-- Ranges the random source guarantees for the metrics draws (`uniform`
under the idealized semantics yields a value in `[a, b)`). -/
def MetricsDraw.Valid (d : MetricsDraw) : Prop :=
  -50 ≤ d.dRate ∧ d.dRate ≤ 50 ∧ (-2 : ℚ) ≤ d.dEff ∧ d.dEff < 2 ∧
    -20 ≤ d.dTemp ∧ d.dTemp ≤ 20

instance (d : MetricsDraw) : Decidable d.Valid := by
  unfold MetricsDraw.Valid
  infer_instance

/-- Response of `get_operations_metrics` (`/api/operations/metrics`). -/
structure MetricsResponse where
  status : String
  data : Metrics
  timestamp : String
deriving DecidableEq

/-- `get_operations_metrics` handler: perturbs a copy of the stored baseline;
the store itself is returned unchanged. -/
def get_operations_metrics (s : PlantDataStore) (d : MetricsDraw) (now : String) :
    MetricsResponse × PlantDataStore :=
  let metrics := s.production_metrics
  let metrics := { metrics with production_rate := metrics.production_rate + d.dRate }
  let metrics := { metrics with efficiency := metrics.efficiency + d.dEff }
  let metrics := { metrics with temperature := metrics.temperature + d.dTemp }
  ({ status := "success", data := metrics, timestamp := now }, s)

/-- `statistics` sub-dict of the worker-safety payload. -/
structure SafetyStats where
  total_workers : Nat
  safe_workers : Nat
  ppe_compliance_rate : ℚ
  violations_today : Nat
  safety_score : ℚ
deriving DecidableEq

/-- `data` sub-dict of the worker-safety payload. -/
structure WorkerSafetyData where
  workers : List Worker
  statistics : SafetyStats
deriving DecidableEq

/-- Response of `get_worker_safety_status` (`/api/safety/workers`). -/
structure WorkerSafetyResponse where
  status : String
  data : WorkerSafetyData
  timestamp : String
deriving DecidableEq

/-- `get_worker_safety_status` handler: first 10 workers plus statistics over
the full roster. -/
def get_worker_safety_status (s : PlantDataStore) (now : String) :
    WorkerSafetyResponse × PlantDataStore :=
  let workers := s.workers
  let total_workers := workers.length
  let safe_workers := (workers.filter (fun w => w.status == "Safe")).length
  let ppe_compliant := (workers.filter (fun w => w.ppe_compliance)).length
  let violations :=
    (workers.filter (fun w => ["PPE Missing", "Training Required"].contains w.status)).length
  ({ status := "success"
   , data :=
     { workers := workers.take 10
     , statistics :=
       { total_workers := total_workers
       , safe_workers := safe_workers
       , ppe_compliance_rate := round1 (((ppe_compliant : ℚ) / (total_workers : ℚ)) * 100)
       , violations_today := violations
       , safety_score := round1 (((safe_workers : ℚ) / (total_workers : ℚ)) * 100) } }
   , timestamp := now }, s)

/-- One hardcoded record of `get_safety_violations`. -/
structure Violation where
  id : String
  worker_id : String
  worker_name : String
  violation_type : String
  location : String
  severity : String
  timestamp : String
  resolved : Bool
deriving DecidableEq

/-- Response of `get_safety_violations` (`/api/safety/violations`). -/
structure ViolationsResponse where
  status : String
  data : List Violation
  timestamp : String
deriving DecidableEq

/-- `get_safety_violations` handler.  `iso2hAgo` / `iso5hAgo` stand for
`(datetime.now() - timedelta(hours=2)).isoformat()` and the 5-hour version. -/
def get_safety_violations (s : PlantDataStore) (iso2hAgo iso5hAgo now : String) :
    ViolationsResponse × PlantDataStore :=
  ({ status := "success"
   , data :=
     [ { id := "V001"
       , worker_id := "W1047"
       , worker_name := "Ahmed Hassan"
       , violation_type := "PPE Missing"
       , location := "Zone B"
       , severity := "Medium"
       , timestamp := iso2hAgo
       , resolved := false }
     , { id := "V002"
       , worker_id := "W1023"
       , worker_name := "Lisa Chen"
       , violation_type := "Unauthorized Zone Access"
       , location := "Zone D"
       , severity := "High"
       , timestamp := iso5hAgo
       , resolved := true } ]
   , timestamp := now }, s)

/-- The shift-band computation of `get_current_schedule` on
`datetime.now().hour`. -/
def current_shift_of_hour (hour : Nat) : String :=
  if 6 ≤ hour ∧ hour < 14 then "Morning Shift"
  else if 14 ≤ hour ∧ hour < 22 then "Afternoon Shift"
  else "Night Shift"

/-- `data` sub-dict of the schedule payload. -/
structure ScheduleData where
  schedules : List Shift
  current_shift : String
  current_time : String
deriving DecidableEq

/-- Response of `get_current_schedule` (`/api/schedule/current`). -/
structure ScheduleResponse where
  status : String
  data : ScheduleData
  timestamp : String
deriving DecidableEq

/-- `get_current_schedule` handler.  `hhmm` stands for
`datetime.now().strftime('%H:%M')`. -/
def get_current_schedule (s : PlantDataStore) (hour : Nat) (hhmm now : String) :
    ScheduleResponse × PlantDataStore :=
  ({ status := "success"
   , data :=
     { schedules := s.schedules
     , current_shift := current_shift_of_hour hour
     , current_time := hhmm }
   , timestamp := now }, s)

/-- The draws of `optimize_schedule`: `randint(1000, 9999)`,
`randint(5, 15)`, `randint(10000, 50000)`, `randint(2, 8)`. -/
structure OptimizeDraw where
  optId : Nat
  effGain : Nat
  energySave : Nat
  safetyImp : Nat
deriving DecidableEq

/-- `improvements` sub-dict of the optimization payload. -/
structure Improvements where
  efficiency_gain : String
  energy_savings : String
  safety_score_improvement : String
deriving DecidableEq

/-- `data` sub-dict of the optimization payload. -/
structure OptimizationResult where
  optimization_id : String
  improvements : Improvements
  recommended_changes : List String
  status : String
deriving DecidableEq

/-- Response of `optimize_schedule` (`/api/schedule/optimize`). -/
structure OptimizeResponse where
  status : String
  message : String
  data : OptimizationResult
  timestamp : String
deriving DecidableEq

/-- `optimize_schedule` handler (ignores the request body entirely). -/
def optimize_schedule (s : PlantDataStore) (d : OptimizeDraw) (now : String) :
    OptimizeResponse × PlantDataStore :=
  ({ status := "success"
   , message := "Schedule optimization completed"
   , data :=
     { optimization_id := "OPT_" ++ toString d.optId
     , improvements :=
       { efficiency_gain := toString d.effGain ++ "%"
       , energy_savings := "₹" ++ toString d.energySave ++ "/day"
       , safety_score_improvement := toString d.safetyImp ++ " points" }
     , recommended_changes :=
       [ "Redistribute workers from Zone A to Zone C during peak hours"
       , "Schedule maintenance during low-production periods"
       , "Implement staggered break times to maintain productivity" ]
     , status := "completed" }
   , timestamp := now }, s)

/-- `age_verification` category of the compliance payload. -/
structure AgeVerification where
  status : String
  verified_workers : Nat
  total_workers : Nat
  compliance_rate : Nat
deriving DecidableEq

/-- `safety_training` category of the compliance payload. -/
structure SafetyTraining where
  status : String
  completed_training : Nat
  total_workers : Nat
  compliance_rate : Nat
deriving DecidableEq

/-- `environmental` category of the compliance payload. -/
structure Environmental where
  status : String
  emissions_target : Int
  current_emissions : Int
  compliance_rate : Nat
deriving DecidableEq

/-- `labor_standards` category of the compliance payload. -/
structure LaborStandards where
  status : String
  working_hours_violations : Nat
  overtime_compliance : Nat
  break_time_compliance : Nat
deriving DecidableEq

/-- `data` sub-dict of the compliance payload. -/
structure ComplianceData where
  age_verification : AgeVerification
  safety_training : SafetyTraining
  environmental : Environmental
  labor_standards : LaborStandards
deriving DecidableEq

/-- Response of `get_compliance_status` (`/api/compliance/status`). -/
structure ComplianceResponse where
  status : String
  data : ComplianceData
  timestamp : String
deriving DecidableEq

/-- `get_compliance_status` handler: four fixed category records. -/
def get_compliance_status (s : PlantDataStore) (now : String) :
    ComplianceResponse × PlantDataStore :=
  ({ status := "success"
   , data :=
     { age_verification :=
       { status := "compliant", verified_workers := 50, total_workers := 50
       , compliance_rate := 100 }
     , safety_training :=
       { status := "mostly_compliant", completed_training := 48, total_workers := 50
       , compliance_rate := 96 }
     , environmental :=
       { status := "compliant", emissions_target := -10, current_emissions := -12
       , compliance_rate := 120 }
     , labor_standards :=
       { status := "compliant", working_hours_violations := 0, overtime_compliance := 100
       , break_time_compliance := 98 } }
   , timestamp := now }, s)

/-- `ai_responses`: the six response templates of `ai_chat`, each
interpolating the user's message. -/
def ai_responses (user_message : String) : List String :=
  [ "Based on your query about '" ++ user_message ++
      "', I recommend optimizing kiln temperature to 1470°C for better efficiency."
  , "Regarding '" ++ user_message ++
      "', all safety protocols are currently being followed. Worker compliance is at 96%."
  , "For '" ++ user_message ++
      "', I suggest scheduling preventive maintenance during the next low-production period."
  , "Analyzing '" ++ user_message ++
      "': Energy consumption can be reduced by 8% through parameter adjustments."
  , "About '" ++ user_message ++
      "': Current production rate is optimal. Consider adjusting only if demand increases."
  , "Concerning '" ++ user_message ++
      "': All environmental targets are being met. CO2 emissions are 12% below target." ]

/-- `data` sub-dict of the chat payload. -/
structure ChatData where
  user_message : String
  ai_response : String
  confidence : ℚ
  suggestions : List String
deriving DecidableEq

/-- Response of `ai_chat` (`/api/ai/chat`). -/
structure ChatResponse where
  status : String
  data : ChatData
  timestamp : String
deriving DecidableEq

/-- `ai_chat` handler.  `choice` is the index `random.choice` picks in
`ai_responses`; `conf` is the value of `random.uniform(0.85, 0.98)`.  The
handler first evaluates `request.json`, which fails the request when the body
is absent or malformed. -/
def ai_chat (s : PlantDataStore) (body : RequestBody) (choice : Fin 6) (conf : ℚ)
    (now : String) : Except Unit ChatResponse × PlantDataStore :=
  match request_json body with
  | .error e => (.error e, s)
  | .ok fields =>
    let user_message := dictGet fields "message" ""
    let response := (ai_responses user_message).get
      ⟨choice.val, by simp [ai_responses]⟩
    (.ok
      { status := "success"
      , data :=
        { user_message := user_message
        , ai_response := response
        , confidence := conf
        , suggestions :=
          [ "Would you like me to implement this recommendation?"
          , "Should I schedule this change for the next maintenance window?"
          , "Would you like a detailed analysis report?" ] }
      , timestamp := now }, s)

/-- The draws of `generate_safety_report`: `randint(0, 3)`,
`uniform(94, 98)`, `uniform(95, 100)`, `uniform(92, 98)`. -/
structure ReportDraw where
  incidents : Nat
  ppeAvg : ℚ
  trainingCompletion : ℚ
  score : ℚ
deriving DecidableEq

/-- `summary` sub-dict of the report payload. -/
structure ReportSummary where
  total_incidents : Nat
  ppe_compliance_avg : ℚ
  safety_training_completion : ℚ
  safety_score : ℚ
deriving DecidableEq

/-- `data` sub-dict of the report payload. -/
structure ReportData where
  report_id : String
  period : String
  summary : ReportSummary
  recommendations : List String
  generated_at : String
deriving DecidableEq

/-- Response of `generate_safety_report` (`/api/reports/safety`).  Note:
there is no top-level `timestamp` field in this payload; the time stamp sits
inside `data.generated_at`. -/
structure ReportResponse where
  status : String
  message : String
  data : ReportData
  download_url : String
deriving DecidableEq

/-- `generate_safety_report` handler.  `stamp` stands for
`datetime.now().strftime('%Y%m%d_%H%M%S')`. -/
def generate_safety_report (s : PlantDataStore) (body : RequestBody) (d : ReportDraw)
    (stamp now : String) : Except Unit ReportResponse × PlantDataStore :=
  match request_json body with
  | .error e => (.error e, s)
  | .ok fields =>
    let report_id := "RPT_" ++ stamp
    (.ok
      { status := "success"
      , message := "Safety report generated successfully"
      , data :=
        { report_id := report_id
        , period := dictGet fields "period" "daily"
        , summary :=
          { total_incidents := d.incidents
          , ppe_compliance_avg := d.ppeAvg
          , safety_training_completion := d.trainingCompletion
          , safety_score := d.score }
        , recommendations :=
          [ "Increase safety training frequency in Zone B"
          , "Install additional PPE monitoring cameras"
          , "Implement reward system for safety compliance" ]
        , generated_at := now }
      , download_url := "/api/reports/download/" ++ report_id }, s)

/-- `data` sub-dict of the emergency-stop payload. -/
structure EmergencyData where
  stop_id : String
  initiated_by : String
  reason : String
  affected_systems : List String
  response_time : String
  status : String
deriving DecidableEq

/-- Response of `emergency_stop` (`/api/emergency/stop`). -/
structure EmergencyResponse where
  status : String
  message : String
  data : EmergencyData
  timestamp : String
deriving DecidableEq

/-- `emergency_stop` handler. -/
def emergency_stop (s : PlantDataStore) (body : RequestBody) (stamp now : String) :
    Except Unit EmergencyResponse × PlantDataStore :=
  match request_json body with
  | .error e => (.error e, s)
  | .ok fields =>
    (.ok
      { status := "success"
      , message := "Emergency stop activated successfully"
      , data :=
        { stop_id := "ESTOP_" ++ stamp
        , initiated_by := dictGet fields "user_id" "system"
        , reason := dictGet fields "reason" "Manual emergency stop"
        , affected_systems :=
          [ "Production Line 1", "Production Line 2", "Kiln Operations", "Conveyor Systems" ]
        , response_time := "< 5 seconds"
        , status := "emergency_stop_active" }
      , timestamp := now }, s)

/-- The ten `/api/...` routes of `app.py`. -/
inductive Endpoint where
  | health
  | operations_metrics
  | safety_workers
  | safety_violations
  | schedule_current
  | schedule_optimize
  | compliance_status
  | ai_chat
  | reports_safety
  | emergency_stop
deriving DecidableEq

/-- Everything one request supplies to a handler besides the store: the
ambient clock readings, the request body, and the values produced by the
process-wide random source during that request. -/
structure RequestEnv where
  now : String
  hour : Nat
  hhmm : String
  stamp : String
  iso2hAgo : String
  iso5hAgo : String
  body : RequestBody
  metricsDraw : MetricsDraw
  chatChoice : Fin 6
  confidence : ℚ
  optDraw : OptimizeDraw
  reportDraw : ReportDraw

/-- A response of any of the ten API routes. -/
inductive ApiResponse where
  | health (r : HealthResponse)
  | metrics (r : MetricsResponse)
  | workers (r : WorkerSafetyResponse)
  | violations (r : ViolationsResponse)
  | schedule (r : ScheduleResponse)
  | optimize (r : OptimizeResponse)
  | compliance (r : ComplianceResponse)
  | chat (r : ChatResponse)
  | report (r : ReportResponse)
  | estop (r : EmergencyResponse)

/-- Dispatch one request: the route's handler applied to the store and the
request's inputs.  `Except.error ()` is a framework-level request failure
(no handler constructs one except through `request_json`). -/
def step (e : Endpoint) (s : PlantDataStore) (env : RequestEnv) :
    Except Unit ApiResponse × PlantDataStore :=
  match e with
  | .health =>
      let r := health_check s env.now
      (.ok (.health r.1), r.2)
  | .operations_metrics =>
      let r := get_operations_metrics s env.metricsDraw env.now
      (.ok (.metrics r.1), r.2)
  | .safety_workers =>
      let r := get_worker_safety_status s env.now
      (.ok (.workers r.1), r.2)
  | .safety_violations =>
      let r := get_safety_violations s env.iso2hAgo env.iso5hAgo env.now
      (.ok (.violations r.1), r.2)
  | .schedule_current =>
      let r := get_current_schedule s env.hour env.hhmm env.now
      (.ok (.schedule r.1), r.2)
  | .schedule_optimize =>
      let r := optimize_schedule s env.optDraw env.now
      (.ok (.optimize r.1), r.2)
  | .compliance_status =>
      let r := get_compliance_status s env.now
      (.ok (.compliance r.1), r.2)
  | .ai_chat =>
      let r := ai_chat s env.body env.chatChoice env.confidence env.now
      (r.1.map .chat, r.2)
  | .reports_safety =>
      let r := generate_safety_report s env.body env.reportDraw env.stamp env.now
      (r.1.map .report, r.2)
  | .emergency_stop =>
      let r := emergency_stop s env.body env.stamp env.now
      (r.1.map .estop, r.2)

/-- Run a sequence of requests against the store, threading the store each
handler returns into the next request. -/
def run : List (Endpoint × RequestEnv) → PlantDataStore → PlantDataStore
  | [], s => s
  | (e, env) :: rest, s => run rest (step e s env).2

/-- The top-level keys, in insertion order, of the dict each route passes to
`jsonify`. -/
def api_top_keys : Endpoint → List String
  | .health => ["status", "timestamp", "version", "services"]
  | .operations_metrics => ["status", "data", "timestamp"]
  | .safety_workers => ["status", "data", "timestamp"]
  | .safety_violations => ["status", "data", "timestamp"]
  | .schedule_current => ["status", "data", "timestamp"]
  | .schedule_optimize => ["status", "message", "data", "timestamp"]
  | .compliance_status => ["status", "data", "timestamp"]
  | .ai_chat => ["status", "data", "timestamp"]
  | .reports_safety => ["status", "message", "data", "download_url"]
  | .emergency_stop => ["status", "message", "data", "timestamp"]

/-- A fixed in-range assignment of per-worker draws, used to evaluate the
theorems below on a concrete store. -/
def defaultDraws : Nat → WorkerDraw := fun _ =>
  { age := 30, zone := "Zone A", status := "Safe", ppe := true, trainDays := 10 }

/-- The concrete store `PlantDataStore()` builds under `defaultDraws`. -/
def store0 : PlantDataStore := PlantDataStore.init defaultDraws

/-- Written from the spec's words, for comparison with the code's
`current_shift_of_hour`: hour bands `[6,14) → Morning`, `[14,22) →
Afternoon`, anything else `→ Night`. -/
def spec_current_shift (hour : Nat) : String :=
  if 6 ≤ hour ∧ hour < 14 then "Morning Shift"
  else if 14 ≤ hour ∧ hour < 22 then "Afternoon Shift"
  else "Night Shift"

/-- Helper: on a roster of 50, the percentage formula the worker-safety
handler rounds is already exact, and `round1` returns twice the count. -/
theorem round1_count (c : Nat) : round1 (((c : ℚ) / 50) * 100) = 2 * c := by
  unfold round1
  have h : (10 : ℚ) * (((c : ℚ) / 50) * 100) = ((20 * (c : ℤ) : ℤ) : ℚ) := by
    push_cast
    ring
  rw [h, round_intCast]
  push_cast
  ring

/-- Helper: `ai_chat` never writes the store back. -/
theorem ai_chat_snd (s : PlantDataStore) (body : RequestBody) (choice : Fin 6) (conf : ℚ)
    (now : String) : (ai_chat s body choice conf now).2 = s := by
  cases body <;> rfl

/-- Helper: `generate_safety_report` never writes the store back. -/
theorem generate_safety_report_snd (s : PlantDataStore) (body : RequestBody) (d : ReportDraw)
    (stamp now : String) : (generate_safety_report s body d stamp now).2 = s := by
  cases body <;> rfl

/-- Helper: `emergency_stop` never writes the store back. -/
theorem emergency_stop_snd (s : PlantDataStore) (body : RequestBody) (stamp now : String) :
    (emergency_stop s body stamp now).2 = s := by
  cases body <;> rfl

/-- Helper: no route's handler writes the store back. -/
theorem step_snd (e : Endpoint) (s : PlantDataStore) (env : RequestEnv) :
    (step e s env).2 = s := by
  cases e
  case ai_chat => exact ai_chat_snd ..
  case reports_safety => exact generate_safety_report_snd ..
  case emergency_stop => exact emergency_stop_snd ..
  all_goals rfl

/-- Helper: any sequence of requests leaves the store where it started. -/
theorem run_id (reqs : List (Endpoint × RequestEnv)) (s : PlantDataStore) : run reqs s = s := by
  induction reqs generalizing s with
  | nil => rfl
  | cons p rest ih =>
    obtain ⟨e, env⟩ := p
    rw [run, step_snd, ih]

/-- C1: no handler and no sequence of requests changes the startup-generated
store (workers, shifts, metrics baseline), and two consecutive calls to the
worker-safety endpoint return the same `total_workers` and the same first-10
worker identifiers. -/
theorem C1_shared_state_immutable (reqs : List (Endpoint × RequestEnv)) (s : PlantDataStore)
    (e : Endpoint) (env env1 env2 : RequestEnv) :
    (step e s env).2 = s ∧
    run reqs s = s ∧
    (get_worker_safety_status ((get_worker_safety_status s env1.now).2)
        env2.now).1.data.statistics.total_workers
      = (get_worker_safety_status s env1.now).1.data.statistics.total_workers ∧
    (get_worker_safety_status ((get_worker_safety_status s env1.now).2)
        env2.now).1.data.workers.map Worker.id
      = (get_worker_safety_status s env1.now).1.data.workers.map Worker.id :=
  ⟨step_snd e s env, run_id reqs s, rfl, rfl⟩

/-- C10: every one of the 50 workers generated at startup carries
`certification_valid = True`; the flag is never `False`. -/
theorem C10_certification_flag_constant (draws : Nat → WorkerDraw) :
    (generate_mock_workers draws).length = 50 ∧
    ∀ w ∈ generate_mock_workers draws, w.certification_valid = true := by
  constructor
  · simp [generate_mock_workers]
  · intro w hw
    simp only [generate_mock_workers, List.mem_map] at hw
    obtain ⟨k, -, rfl⟩ := hw
    rfl

/-- C9: the root route with the static asset absent returns a structured
error payload with status 404 (it does not crash); with the asset present it
returns the asset's contents; and those are the only two outcomes. -/
theorem C9_root_route_missing_asset (html : String) (f : Option String) :
    index none =
      .error ("Frontend not found. Please ensure index.html exists in frontend folder", 404) ∧
    index (some html) = .ok html ∧
    ((∃ c, index f = .ok c) ∨
      index f =
        .error ("Frontend not found. Please ensure index.html exists in frontend folder", 404)) := by
  refine ⟨rfl, rfl, ?_⟩
  cases f with
  | none => exact Or.inr rfl
  | some c => exact Or.inl ⟨c, rfl⟩

/-- C6: the schedule endpoint's `current_shift` is the pure function of the
wall-clock hour given by the spec's bands, with the listed sample hours. -/
theorem C6_current_shift_bands (s : PlantDataStore) (hour : Nat) (hhmm now : String) :
    (get_current_schedule s hour hhmm now).1.data.current_shift = spec_current_shift hour ∧
    (get_current_schedule s 6 hhmm now).1.data.current_shift = "Morning Shift" ∧
    (get_current_schedule s 13 hhmm now).1.data.current_shift = "Morning Shift" ∧
    (get_current_schedule s 14 hhmm now).1.data.current_shift = "Afternoon Shift" ∧
    (get_current_schedule s 21 hhmm now).1.data.current_shift = "Afternoon Shift" ∧
    (get_current_schedule s 22 hhmm now).1.data.current_shift = "Night Shift" ∧
    (get_current_schedule s 5 hhmm now).1.data.current_shift = "Night Shift" := by
  refine ⟨rfl, ?_, ?_, ?_, ?_, ?_, ?_⟩ <;>
    simp [get_current_schedule, current_shift_of_hour]

/-- C2: every metrics response is the stored baseline with `production_rate`
shifted by the integer draw from `[-50, 50]`, `efficiency` by the uniform
draw from `[-2, 2]`, `temperature` by the integer draw from `[-20, 20]`, and
with `energy_consumption` and `co2_emissions` exactly the baseline values,
for all in-range random draws. -/
theorem C2_metrics_bounded_jitter (s : PlantDataStore) (d : MetricsDraw) (now : String)
    (hd : d.Valid) :
    (get_operations_metrics s d now).1.data.production_rate
        = s.production_metrics.production_rate + d.dRate ∧
    -50 ≤ d.dRate ∧ d.dRate ≤ 50 ∧
    (get_operations_metrics s d now).1.data.efficiency
        = s.production_metrics.efficiency + d.dEff ∧
    (-2 : ℚ) ≤ d.dEff ∧ d.dEff ≤ 2 ∧
    (get_operations_metrics s d now).1.data.temperature
        = s.production_metrics.temperature + d.dTemp ∧
    -20 ≤ d.dTemp ∧ d.dTemp ≤ 20 ∧
    (get_operations_metrics s d now).1.data.energy_consumption
        = s.production_metrics.energy_consumption ∧
    (get_operations_metrics s d now).1.data.co2_emissions
        = s.production_metrics.co2_emissions := by
  obtain ⟨h1, h2, h3, h4, h5, h6⟩ := hd
  exact ⟨rfl, h1, h2, rfl, h3, le_of_lt h4, rfl, h5, h6, rfl, rfl⟩

/-- Witness for C2 at a concrete store and concrete draws. -/
theorem C2_witness :
    (get_operations_metrics store0 ⟨-50, 0, 20⟩ "t").1.data.production_rate
      = store0.production_metrics.production_rate + (-50) :=
  (C2_metrics_bounded_jitter store0 ⟨-50, 0, 20⟩ "t" (by decide)).1

/-- C3: the worker-safety response returns exactly 10 worker records while
its statistics are computed over the full 50-worker roster: `total_workers`
is 50, `safe_workers` counts status exactly "Safe" over all workers,
`violations_today` counts statuses in {"PPE Missing", "Training Required"}
over all workers, and `ppe_compliance_rate` / `safety_score` are the rounded
full-roster percentages (here exactly twice the respective counts), each in
`[0, 100]`. -/
theorem C3_worker_safety_statistics (draws : Nat → WorkerDraw) (now : String) :
    (get_worker_safety_status (PlantDataStore.init draws) now).1.data.workers.length = 10 ∧
    (get_worker_safety_status (PlantDataStore.init draws) now).1.data.statistics.total_workers
      = 50 ∧
    (get_worker_safety_status (PlantDataStore.init draws) now).1.data.statistics.safe_workers
      = ((PlantDataStore.init draws).workers.filter (fun w => w.status == "Safe")).length ∧
    (get_worker_safety_status (PlantDataStore.init draws) now).1.data.statistics.violations_today
      = ((PlantDataStore.init draws).workers.filter
          (fun w => ["PPE Missing", "Training Required"].contains w.status)).length ∧
    (get_worker_safety_status (PlantDataStore.init draws) now).1.data.statistics.ppe_compliance_rate
      = 2 * (((PlantDataStore.init draws).workers.filter (fun w => w.ppe_compliance)).length : ℚ) ∧
    (get_worker_safety_status (PlantDataStore.init draws) now).1.data.statistics.safety_score
      = 2 * (((PlantDataStore.init draws).workers.filter (fun w => w.status == "Safe")).length : ℚ) ∧
    0 ≤ (get_worker_safety_status
        (PlantDataStore.init draws) now).1.data.statistics.ppe_compliance_rate ∧
    (get_worker_safety_status (PlantDataStore.init draws) now).1.data.statistics.ppe_compliance_rate
      ≤ 100 ∧
    0 ≤ (get_worker_safety_status (PlantDataStore.init draws) now).1.data.statistics.safety_score ∧
    (get_worker_safety_status (PlantDataStore.init draws) now).1.data.statistics.safety_score
      ≤ 100 := by
  have hlen : (PlantDataStore.init draws).workers.length = 50 := by
    simp [PlantDataStore.init, generate_mock_workers]
  have hcount : ∀ p : Worker → Bool,
      (((PlantDataStore.init draws).workers.filter p).length : ℚ) ≤ 50 := by
    intro p
    have := List.length_filter_le p (PlantDataStore.init draws).workers
    rw [hlen] at this
    exact_mod_cast this
  have hrate : ∀ p : Worker → Bool,
      round1 (((((PlantDataStore.init draws).workers.filter p).length : ℚ)
          / (((PlantDataStore.init draws).workers.length : ℚ))) * 100)
        = 2 * (((PlantDataStore.init draws).workers.filter p).length : ℚ) := by
    intro p
    rw [hlen]
    have := round1_count ((PlantDataStore.init draws).workers.filter p).length
    push_cast at this ⊢
    exact this
  refine ⟨?_, ?_, rfl, rfl, ?_, ?_, ?_, ?_, ?_, ?_⟩
  · simp [get_worker_safety_status, List.length_take, hlen]
  · simp [get_worker_safety_status, hlen]
  · exact hrate _
  · exact hrate _
  · rw [show (get_worker_safety_status
        (PlantDataStore.init draws) now).1.data.statistics.ppe_compliance_rate
        = round1 (((((PlantDataStore.init draws).workers.filter
            (fun w => w.ppe_compliance)).length : ℚ)
          / (((PlantDataStore.init draws).workers.length : ℚ))) * 100) from rfl, hrate]
    positivity
  · rw [show (get_worker_safety_status
        (PlantDataStore.init draws) now).1.data.statistics.ppe_compliance_rate
        = round1 (((((PlantDataStore.init draws).workers.filter
            (fun w => w.ppe_compliance)).length : ℚ)
          / (((PlantDataStore.init draws).workers.length : ℚ))) * 100) from rfl, hrate]
    have := hcount (fun w => w.ppe_compliance)
    linarith
  · rw [show (get_worker_safety_status
        (PlantDataStore.init draws) now).1.data.statistics.safety_score
        = round1 (((((PlantDataStore.init draws).workers.filter
            (fun w => w.status == "Safe")).length : ℚ)
          / (((PlantDataStore.init draws).workers.length : ℚ))) * 100) from rfl, hrate]
    positivity
  · rw [show (get_worker_safety_status
        (PlantDataStore.init draws) now).1.data.statistics.safety_score
        = round1 (((((PlantDataStore.init draws).workers.filter
            (fun w => w.status == "Safe")).length : ℚ)
          / (((PlantDataStore.init draws).workers.length : ℚ))) * 100) from rfl, hrate]
    have := hcount (fun w => w.status == "Safe")
    linarith

/-- C8: startup generates exactly 50 workers whose identifiers are
`W1001 .. W1050` in order, with age in `[22, 60]`, zone from the fixed
4-element zone list, status from the fixed 4-element status list, and a
last-training date 1 to 90 days in the past; and exactly 3 shifts that are a
fixed constant independent of every random draw. -/
theorem C8_startup_generation (draws : Nat → WorkerDraw) (hV : ∀ i, (draws i).Valid) :
    (generate_mock_workers draws).length = 50 ∧
    (∀ k (hk : k < (generate_mock_workers draws).length),
      ((generate_mock_workers draws).get ⟨k, hk⟩).id = "W" ++ toString (1001 + k)) ∧
    (∀ w ∈ generate_mock_workers draws,
      22 ≤ w.age ∧ w.age ≤ 60 ∧ w.zone ∈ zones ∧ w.status ∈ statuses ∧
        1 ≤ w.last_training_days_ago ∧ w.last_training_days_ago ≤ 90) ∧
    generate_mock_schedules.length = 3 ∧
    (PlantDataStore.init draws).schedules = generate_mock_schedules ∧
    (∀ draws2 : Nat → WorkerDraw,
      (PlantDataStore.init draws).schedules = (PlantDataStore.init draws2).schedules) := by
  refine ⟨by simp [generate_mock_workers], ?_, ?_, by simp [generate_mock_schedules], rfl,
    fun _ => rfl⟩
  · intro k hk
    have hk50 : k < 50 := by
      simpa [generate_mock_workers] using hk
    simp only [generate_mock_workers, List.get_eq_getElem, List.getElem_map,
      List.getElem_range, mkWorker]
    have : 1000 + (k + 1) = 1001 + k := by omega
    rw [this]
  · intro w hw
    simp only [generate_mock_workers, List.mem_map] at hw
    obtain ⟨k, -, rfl⟩ := hw
    obtain ⟨h1, h2, h3, h4, h5, h6⟩ := hV (k + 1)
    exact ⟨h1, h2, h3, h4, h5, h6⟩

/-- Witness for C8 under the concrete in-range draw assignment
`defaultDraws`. -/
theorem C8_witness : (generate_mock_workers defaultDraws).length = 50 :=
  (C8_startup_generation defaultDraws (fun _ =>
    (by decide : (WorkerDraw.mk 30 "Zone A" "Safe" true 10).Valid))).1

/-- C7: for a chat request whose body carries the message `m`, the handler
succeeds, echoes `m`, answers with one of the six fixed templates — which
always contains `m` as a literal substring — returns the drawn confidence
(in `[0.85, 0.98)` by the contract of `random.uniform(0.85, 0.98)`), and the
three fixed follow-up suggestions. -/
theorem C7_ai_chat_response (s : PlantDataStore) (fields : List (String × String)) (m : String)
    (choice : Fin 6) (conf : ℚ) (now : String)
    (h1 : (0.85 : ℚ) ≤ conf) (h2 : conf < (0.98 : ℚ)) :
    ∃ r : ChatResponse,
      (ai_chat s (.jsonObj (("message", m) :: fields)) choice conf now).1 = .ok r ∧
      r.data.user_message = m ∧
      r.data.ai_response ∈ ai_responses m ∧
      (∃ p q, r.data.ai_response = p ++ m ++ q) ∧
      (0.85 : ℚ) ≤ r.data.confidence ∧ r.data.confidence < (0.98 : ℚ) ∧
      r.data.suggestions =
        [ "Would you like me to implement this recommendation?"
        , "Should I schedule this change for the next maintenance window?"
        , "Would you like a detailed analysis report?" ] := by
  refine ⟨_, rfl, rfl, List.get_mem _ _ _, ?_, h1, h2, rfl⟩
  fin_cases choice <;> exact ⟨_, _, rfl⟩

/-- Witness for C7: the concrete message "kiln temp" with a concrete
in-range confidence draw. -/
theorem C7_witness :
    ∃ r : ChatResponse,
      (ai_chat store0 (.jsonObj [("message", "kiln temp")]) 0 (0.9 : ℚ) "t").1 = .ok r ∧
      r.data.user_message = "kiln temp" ∧
      r.data.ai_response ∈ ai_responses "kiln temp" ∧
      (∃ p q, r.data.ai_response = p ++ "kiln temp" ++ q) ∧
      (0.85 : ℚ) ≤ r.data.confidence ∧ r.data.confidence < (0.98 : ℚ) ∧
      r.data.suggestions =
        [ "Would you like me to implement this recommendation?"
        , "Should I schedule this change for the next maintenance window?"
        , "Would you like a detailed analysis report?" ] :=
  C7_ai_chat_response store0 [] "kiln temp" 0 (0.9 : ℚ) "t" (by norm_num) (by norm_num)

/-- C4 counterexample: with an absent (or malformed) body, the three POST
handlers evaluate `request.json`, which fails the request — none of them
succeeds with the documented defaults. -/
theorem C4_counterexample :
    (ai_chat store0 .absent 0 (0.9 : ℚ) "t").1 = .error () ∧
    (ai_chat store0 .malformed 0 (0.9 : ℚ) "t").1 = .error () ∧
    (generate_safety_report store0 .absent ⟨0, 95, 96, 95⟩ "s" "t").1 = .error () ∧
    (emergency_stop store0 .absent "s" "t").1 = .error () :=
  ⟨rfl, rfl, rfl, rfl⟩

/-- C4 as amended: when the body is a JSON object missing a field, each POST
handler succeeds and substitutes the documented default (`message` → `""`,
`period` → `"daily"`, `user_id` → `"system"`, `reason` → `"Manual emergency
stop"`); when the body is absent or malformed JSON, the request fails at
`request.json` instead of being served with defaults. -/
theorem C4_amended_defaults (s : PlantDataStore) (fields : List (String × String))
    (choice : Fin 6) (conf : ℚ) (d : ReportDraw) (stamp now : String)
    (hm : fields.find? (fun p => p.1 == "message") = none)
    (hp : fields.find? (fun p => p.1 == "period") = none)
    (hu : fields.find? (fun p => p.1 == "user_id") = none)
    (hr : fields.find? (fun p => p.1 == "reason") = none) :
    (∃ r : ChatResponse, (ai_chat s (.jsonObj fields) choice conf now).1 = .ok r ∧
      r.data.user_message = "") ∧
    (∃ r : ReportResponse, (generate_safety_report s (.jsonObj fields) d stamp now).1 = .ok r ∧
      r.data.period = "daily") ∧
    (∃ r : EmergencyResponse, (emergency_stop s (.jsonObj fields) stamp now).1 = .ok r ∧
      r.data.initiated_by = "system" ∧ r.data.reason = "Manual emergency stop") ∧
    (ai_chat s .absent choice conf now).1 = .error () ∧
    (ai_chat s .malformed choice conf now).1 = .error () ∧
    (generate_safety_report s .absent d stamp now).1 = .error () ∧
    (generate_safety_report s .malformed d stamp now).1 = .error () ∧
    (emergency_stop s .absent stamp now).1 = .error () ∧
    (emergency_stop s .malformed stamp now).1 = .error () := by
  refine ⟨⟨_, rfl, ?_⟩, ⟨_, rfl, ?_⟩, ⟨_, rfl, ?_, ?_⟩, rfl, rfl, rfl, rfl, rfl, rfl⟩ <;>
    simp [dictGet, hm, hp, hu, hr]

/-- Witness for C4's amended statement at the concrete empty JSON object. -/
theorem C4_witness :
    ∃ r : ChatResponse, (ai_chat store0 (.jsonObj []) 0 (0.9 : ℚ) "t").1 = .ok r ∧
      r.data.user_message = "" :=
  (C4_amended_defaults store0 [] 0 (0.9 : ℚ) ⟨0, 95, 96, 95⟩ "s" "t" rfl rfl rfl rfl).1

/-- C5 counterexample: the health payload has no top-level `data` key and the
safety-report payload has no top-level `timestamp` key. -/
theorem C5_counterexample :
    "data" ∉ api_top_keys .health ∧ "timestamp" ∉ api_top_keys .reports_safety := by
  decide

/-- C5 as amended: every API response carries a top-level `status` key; every
route except the health check carries a top-level `data` key (health inlines
its payload as `version` / `services`); and every route except the
safety-report one carries a top-level `timestamp` key (the report carries its
time stamp only inside `data.generated_at`, next to `download_url`). -/
theorem C5_amended_response_shape (e : Endpoint) :
    "status" ∈ api_top_keys e ∧
    ("data" ∈ api_top_keys e ∨ e = .health) ∧
    ("timestamp" ∈ api_top_keys e ∨ e = .reports_safety) := by
  cases e <;> decide

end Cementra
